import Mathlib

/-!
Verification of the course-enrollment backend (BACKEND401).

The development shallowly embeds the four core operations of the repository:

* the enrollment ledger: the POST /registerCourse handler
  (src/course/route.ts lines 857-956, duplicated in src/users/route.ts
  lines 353-441 up to the registeredUsers/courseImage pushes);
* the attendance-code generator: POST /generateCode
  (src/course/route.ts lines 958-1061);
* the attendance-code validator: POST /validateCode
  (src/course/route.ts lines 1106-1210);
* the admin approval workflow: POST /action
  (src/course/route.ts lines 1357-1488).

Timestamps are modelled as milliseconds since the Unix epoch (an `Int`,
as in `Date.getTime()`).  The JavaScript calendar operations used by the
code (`setFullYear`, `setMonth`, `setDate`, `getUTCFullYear`,
`getUTCMonth`, `getUTCDate`) are modelled with the standard
days-from-civil / civil-from-days conversion, which agrees with the
ECMAScript MakeDay normalization (out-of-range day and month arguments
roll over).  The server is modelled as running in the UTC timezone, the
standard deployment for this backend, so the local-time accessors
`getFullYear`/`setFullYear`/`getMonth`/`getHours`/... coincide with
their UTC counterparts.
-/

/-- Milliseconds since the Unix epoch, as produced by `Date.getTime()`. -/
abbrev Millis := Int

def msPerHour : Int := 3600000

def msPerDay : Int := 86400000

/-- A civil (proleptic Gregorian) calendar date. -/
structure Civil where
  year : Int
  month : Int
  day : Int
deriving DecidableEq

/-- Days since 1970-01-01 of a civil date (Hinnant's days_from_civil).
    Linear in `day`, so out-of-range days roll over exactly as the
    ECMAScript MakeDay operation does. -/
def daysFromCivil (y m d : Int) : Int :=
  let y1 := y - (if m ≤ 2 then 1 else 0)
  let era := Int.fdiv y1 400
  let yoe := y1 - era * 400
  let doy := Int.fdiv (153 * (m + (if 2 < m then -3 else 9)) + 2) 5 + d - 1
  let doe := yoe * 365 + Int.fdiv yoe 4 - Int.fdiv yoe 100 + doy
  era * 146097 + doe - 719468

/-- Civil date of a day count since 1970-01-01 (Hinnant's civil_from_days). -/
def civilFromDays (z0 : Int) : Civil :=
  let z := z0 + 719468
  let era := Int.fdiv z 146097
  let doe := z - era * 146097
  let yoe :=
    Int.fdiv (doe - Int.fdiv doe 1460 + Int.fdiv doe 36524 - Int.fdiv doe 146096) 365
  let y := yoe + era * 400
  let doy := doe - (365 * yoe + Int.fdiv yoe 4 - Int.fdiv yoe 100)
  let mp := Int.fdiv (5 * doy + 2) 153
  let d := doy - Int.fdiv (153 * mp + 2) 5 + 1
  let m := mp + (if mp < 10 then 3 else -9)
  { year := y + (if m ≤ 2 then 1 else 0), month := m, day := d }

/-- The day part of a timestamp. -/
def dayOf (t : Millis) : Int := Int.fdiv t msPerDay

/-- The time-of-day part of a timestamp, in milliseconds. -/
def msOfDay (t : Millis) : Int := Int.fmod t msPerDay

/-- The civil date of a timestamp (UTC). -/
def civilOf (t : Millis) : Civil := civilFromDays (dayOf t)

/-- JavaScript `Date.prototype.getUTCFullYear`. -/
def getUTCFullYear (t : Millis) : Int := (civilOf t).year

/-- JavaScript `Date.prototype.getUTCMonth` (0-based months). -/
def getUTCMonth (t : Millis) : Int := (civilOf t).month - 1

/-- JavaScript `Date.prototype.getUTCDate` (1-based day of month). -/
def getUTCDate (t : Millis) : Int := (civilOf t).day

/-- JavaScript `setFullYear y` on a UTC-timezone server: the year is
    replaced and the date renormalized (e.g. Feb 29 of a non-leap target
    year rolls over to Mar 1). -/
def setFullYear (t : Millis) (y : Int) : Millis :=
  let c := civilOf t
  msOfDay t + msPerDay * daysFromCivil y c.month c.day

/-- `d.setFullYear(d.getFullYear() + k)`, the idiom the approval code uses
    for "plus k calendar years". -/
def addYears (t : Millis) (k : Int) : Millis :=
  setFullYear t (getUTCFullYear t + k)

/-- JavaScript `setMonth m0` (`m0` 0-based, possibly out of range; the
    ECMAScript MakeDay operation normalizes it into the year). -/
def setMonthJs (t : Millis) (m0 : Int) : Millis :=
  let c := civilOf t
  msOfDay t + msPerDay * daysFromCivil (c.year + Int.fdiv m0 12) (Int.fmod m0 12 + 1) c.day

/-- JavaScript `setDate d` (1-based, out-of-range values roll over). -/
def setDateJs (t : Millis) (d : Int) : Millis :=
  let c := civilOf t
  msOfDay t + msPerDay * daysFromCivil c.year c.month d

/-- `end.setHours(start.getHours() + hours)` on a UTC server is exactly a
    shift by `hours` hours. -/
def addHours (t : Millis) (h : Int) : Millis := t + h * msPerHour

/-! ## Data model

Mirrors the mongoose schemas: the course schema (unnamed model file) and
the user schema (src/users/model.ts).  Optional schema fields are
`Option`s; `Date` fields are epoch milliseconds. -/

/-- One completed-course record in `user.trainingInfo`
    (src/users/model.ts lines 13-23). -/
structure TrainingRecord where
  courseId : String
  courseName : String
  description : String
  location : String
  courseImage : Option String
  courseDate : Option Millis
  hours : Int
deriving DecidableEq

/-- One entry of `course.registeredUsers` as pushed by /registerCourse
    (src/course/route.ts lines 930-938). -/
structure RegisteredSummary where
  userId : String
  name : String
  email : String
  phonenumber : String
  idcard : String
  company : String
deriving DecidableEq

/-- One entry of `course.waitingForApproveList` as pushed by /validateCode
    (src/course/route.ts lines 1189-1193). -/
structure WaitingEntry where
  userId : String
  email : String
  timestamp : Millis
deriving DecidableEq

/-- `course.applicationPeriod`; the handlers guard against either bound
    being absent, so both are `Option`s here. -/
structure ApplicationPeriod where
  startDate : Option Millis
  endDate : Option Millis
deriving DecidableEq

/-- The course document (course schema in the model file). -/
structure Course where
  courseId : String
  courseName : String
  courseCode : String
  description : String
  location : String
  courseImage : Option String
  enrollmentLimit : Int
  currentEnrollment : Int
  price : Int
  hours : Int
  courseTag : List String
  createDate : Millis
  courseDate : Option Millis
  applicationPeriod : Option ApplicationPeriod
  imageUrl : Option String
  status : Option String
  isPublished : Bool
  registeredUsers : List RegisteredSummary
  waitingForApproveList : List WaitingEntry
  generatedCode : Option String
  generatedCodeTimestamp : Option Millis
deriving DecidableEq

/-- The user document (src/users/model.ts). -/
structure User where
  userId : String
  name : String
  email : String
  role : String
  phonenumber : String
  idcard : String
  company : String
  password : String
  avatar : Option String
  trainingInfo : List TrainingRecord
  statusStartDate : Option Millis
  statusEndDate : Option Millis
  statusExpiration : Option String
  statusDuration : Option String
  status : String
deriving DecidableEq

/-! ## Enrollment ledger: POST /registerCourse

src/course/route.ts lines 857-956.  The copy in src/users/route.ts
(lines 353-441) is identical except that it does not push the
`registeredUsers` summary and omits `courseImage` from the training
record; every check and the counter update are the same. -/

/-- Error outcomes of /registerCourse, by their response codes. -/
inductive RegErr where
  /-- Error-02-0002: course not found. -/
  | courseNotFound
  /-- Error-02-0003: user not found. -/
  | userNotFound
  /-- Error-02-0004: registration is not open during this period. -/
  | registrationClosed
  /-- Error-02-0005: course already registered. -/
  | alreadyRegistered
  /-- Error-02-0006: course is fully booked. -/
  | courseFull
deriving DecidableEq

/-- Storage state seen by /registerCourse: the course document plus the
    user collection (lookup by userId). -/
structure RegState where
  course : Course
  users : String → Option User

/-- Result of one /registerCourse call: the post-state and the error
    (none on HTTP 200). -/
structure RegOutcome where
  state : RegState
  error : Option RegErr

/-- The application-period guard of /registerCourse (lines 887-900):
    `const now = new Date(); const (startDate, endDate) =
    course.applicationPeriod || {}; if (!startDate || !endDate || now <
    startDate || now > endDate)`. -/
def appPeriodClosed (c : Course) (now : Millis) : Bool :=
  match c.applicationPeriod with
  | none => true
  | some p =>
    match p.startDate, p.endDate with
    | some sd, some ed => decide (now < sd) || decide (ed < now)
    | _, _ => true

/-- `user.trainingInfo.some(info => info.courseId === courseId)`. -/
def hasCourse (u : User) (cid : String) : Bool :=
  u.trainingInfo.any (fun info => info.courseId == cid)

/-- The training record pushed by /registerCourse (lines 918-926). -/
def trainingRecordOf (c : Course) : TrainingRecord :=
  { courseId := c.courseId
    courseName := c.courseName
    description := c.description
    location := c.location
    courseDate := c.courseDate
    hours := c.hours
    courseImage := c.imageUrl }

/-- The user summary pushed onto `registeredUsers` (lines 930-938). -/
def registeredSummaryOf (u : User) : RegisteredSummary :=
  { userId := u.userId
    name := u.name
    email := u.email
    phonenumber := u.phonenumber
    idcard := u.idcard
    company := u.company }

/-- POST /registerCourse (src/course/route.ts lines 857-956): find the
    user, check the application window, the duplicate-registration guard
    and the capacity guard, then push the training record, increment
    `currentEnrollment` and push the user summary. -/
def registerCourse (s : RegState) (userId : String) (now : Millis) : RegOutcome :=
  match s.users userId with
  | none => ⟨s, some RegErr.userNotFound⟩
  | some user =>
    if appPeriodClosed s.course now then ⟨s, some RegErr.registrationClosed⟩
    else if hasCourse user s.course.courseId then ⟨s, some RegErr.alreadyRegistered⟩
    else if s.course.enrollmentLimit ≤ s.course.currentEnrollment then
      ⟨s, some RegErr.courseFull⟩
    else
      let user1 := { user with trainingInfo := user.trainingInfo ++ [trainingRecordOf s.course] }
      let course1 := { s.course with
        currentEnrollment := s.course.currentEnrollment + 1
        registeredUsers := s.course.registeredUsers ++ [registeredSummaryOf user] }
      ⟨⟨course1, fun uid => if uid = userId then some user1 else s.users uid⟩, none⟩

/-- A sequence of /registerCourse calls; returns the final state and the
    userIds of the successful calls, in order. -/
def runRegisters (s : RegState) : List (String × Millis) → RegState × List String
  | [] => (s, [])
  | (uid, now) :: rest =>
    let out := registerCourse s uid now
    let r := runRegisters out.state rest
    (r.1, (if out.error = none then [uid] else []) ++ r.2)

/-! ## Attendance code generator: POST /generateCode

src/course/route.ts lines 958-1061. -/

/-- Error outcomes of /generateCode, by their response codes. -/
inductive GenErr where
  /-- Error-01-0007: course date and hours are required. -/
  | missingDateOrHours
  /-- Error-01-0004: code cannot be generated before the course starts. -/
  | beforeStart
  /-- Error-01-0005: the code generation period has expired. -/
  | expired
  /-- Error-01-0006: code has already been generated for this course period. -/
  | codeAlreadyActive
deriving DecidableEq

/-- Result of one /generateCode call: the post-state of the course and
    the error (none on HTTP 200). -/
structure GenOutcome where
  course : Course
  error : Option GenErr

/-- The active-code guard (lines 1027-1038): `if (generatedCode &&
    generatedCodeTimestamp)` — an empty code string is falsy — `if
    (codeTimestamp >= courseStartTime && codeTimestamp <= courseEndTime)`. -/
def codeActiveInWindow (c : Course) (startT endT : Millis) : Bool :=
  match c.generatedCode, c.generatedCodeTimestamp with
  | some g, some ts => !(g == "") && decide (startT ≤ ts) && decide (ts ≤ endT)
  | _, _ => false

/-- POST /generateCode (src/course/route.ts lines 958-1061).  `newCode`
    is the injected random 4-digit code (`Math.floor(1000 + Math.random()
    * 9000).toString()`).  The current time is shifted by the hardcoded
    +7h (GMT+7) offset before every comparison, and the shifted value is
    the stored timestamp. -/
def generateCode (c : Course) (now : Millis) (newCode : String) : GenOutcome :=
  match c.courseDate with
  | none => ⟨c, some GenErr.missingDateOrHours⟩
  | some courseDate =>
    if c.hours = 0 then ⟨c, some GenErr.missingDateOrHours⟩
    else
      let courseStartTime := courseDate
      let courseEndTime := addHours courseDate c.hours
      let currentTimeGMTPlus7 := now + 7 * msPerHour
      if currentTimeGMTPlus7 < courseStartTime then ⟨c, some GenErr.beforeStart⟩
      else if courseEndTime < currentTimeGMTPlus7 then ⟨c, some GenErr.expired⟩
      else if codeActiveInWindow c courseStartTime courseEndTime then
        ⟨c, some GenErr.codeAlreadyActive⟩
      else
        ⟨{ c with generatedCode := some newCode
                  generatedCodeTimestamp := some currentTimeGMTPlus7 }, none⟩

/-! ## Attendance code validator: POST /validateCode

src/course/route.ts lines 1106-1210. -/

/-- Error outcomes of /validateCode, by their response codes. -/
inductive ValErr where
  /-- Error-02-0001: code is required. -/
  | codeRequired
  /-- Error-02-0002: course not found (lookup by code value failed). -/
  | courseNotFound
  /-- Error-02-0003: invalid code entered (defensive re-check). -/
  | invalidCode
  /-- Error-02-0007: you are not registered for this course. -/
  | notRegistered
  /-- Error-02-0004: code already expired. -/
  | codeExpired
  /-- Error-02-0006: user already in the waiting list for approval. -/
  | alreadyInWaitingList
deriving DecidableEq

/-- Result of one /validateCode call: the post-state of the course and
    the error (none on HTTP 200). -/
structure ValOutcome where
  course : Course
  error : Option ValErr

/-- The timing guard of /validateCode (lines 1156-1174).  When
    `courseDate` is absent, `new Date(undefined)` is an Invalid Date and
    both comparisons are false, so the guard passes. -/
def validateWindowMissed (c : Course) (now7 : Millis) : Bool :=
  match c.courseDate with
  | some d => decide (now7 < d) || decide (addHours d c.hours < now7)
  | none => false

/-- POST /validateCode (src/course/route.ts lines 1106-1210), for the
    course the `findOne per generatedCode` lookup is run against; `uid`
    and `email` come from the JWT.  The lookup by code value is modelled
    by comparing the entered code with this course's stored code; the
    second comparison is the handler's own defensive re-check (dead once
    the lookup matched). -/
def validateCode (c : Course) (enteredCode : String) (uid email : String)
    (now : Millis) : ValOutcome :=
  if enteredCode = "" then ⟨c, some ValErr.codeRequired⟩
  else if c.generatedCode ≠ some enteredCode then ⟨c, some ValErr.courseNotFound⟩
  else if c.generatedCode ≠ some enteredCode then ⟨c, some ValErr.invalidCode⟩
  else if !(c.registeredUsers.any (fun r => r.userId == uid)) then
    ⟨c, some ValErr.notRegistered⟩
  else if validateWindowMissed c (now + 7 * msPerHour) then
    ⟨c, some ValErr.codeExpired⟩
  else if c.waitingForApproveList.any (fun e => e.userId == uid) then
    ⟨c, some ValErr.alreadyInWaitingList⟩
  else
    ⟨{ c with waitingForApproveList :=
        c.waitingForApproveList ++ [⟨uid, email, now⟩] }, none⟩

/-! ## Approval workflow: POST /action

src/course/route.ts lines 1357-1488. -/

/-- The two accepted actions of POST /action. -/
inductive AdminAction where
  | approve
  | reject
deriving DecidableEq

/-- `365 * 24 * 60 * 60 * 1000` (line 1432). -/
def oneYearInMs : Int := 365 * msPerDay

/-- The Thai-language remaining-time string
    `Y ปี M เดือน D วัน` (lines 1463-1467). -/
def formatThai (y m d : Int) : String :=
  toString y ++ " ปี " ++ toString m ++ " เดือน " ++ toString d ++ " วัน"

/-- Lines 1455-1468: recompute `statusDuration`/`statusExpiration` from
    the (already updated) `statusEndDate` and `now`, then store the end
    date and the two strings on the user. -/
def finishApprove (u : User) (endDate now : Millis) : User :=
  let diffTime := endDate - now
  let dur :=
    if 0 < diffTime then
      formatThai (getUTCFullYear diffTime - 1970) (getUTCMonth diffTime)
        (getUTCDate diffTime - 1)
    else formatThai 0 0 0
  { u with statusEndDate := some endDate
           statusDuration := some dur
           statusExpiration := some dur }

/-- The approve branch of POST /action (lines 1400-1471): the status
    start/end update followed by the duration recomputation.  Only the
    user document is touched. -/
def approveUser (user : User) (now : Millis) : User :=
  match user.statusStartDate with
  | none =>
    -- lines 1404-1410: initialize start to now, end to start + 2 years
    let initialEndDate := addYears now 2
    finishApprove { user with statusStartDate := some now } initialEndDate now
  | some start =>
    -- lines 1412-1452
    let maxAllowedEndDate := addYears start 2
    let cur0 := match user.statusEndDate with | some e => e | none => start
    let cur1 :=
      if cur0 ≤ now then
        -- expired: reset to now + 1 year, capped at the ceiling
        let reset := addYears now 1
        if maxAllowedEndDate < reset then maxAllowedEndDate else reset
      else
        let remainingTime := maxAllowedEndDate - cur0
        if oneYearInMs ≤ remainingTime then addYears cur0 1
        else
          -- add the remaining duration, read off a Date built from it
          let addMonths := getUTCMonth remainingTime
          let addDays := getUTCDate remainingTime - 1
          let e1 := setMonthJs cur0 (getUTCMonth cur0 + addMonths)
          setDateJs e1 (getUTCDate e1 + addDays)
    let newEnd := if maxAllowedEndDate < cur1 then maxAllowedEndDate else cur1
    finishApprove user newEnd now

/-- Result of POST /action: the post-state of the user and the course. -/
structure ActionOutcome where
  user : User
  course : Course

/-- POST /action (src/course/route.ts lines 1357-1488) once the user and
    course are found.  `reject` pulls every waiting entry matching the
    userId from the course and leaves the user alone; `approve` runs the
    status update on the user and leaves the course alone. -/
def courseAction (user : User) (course : Course) (action : AdminAction)
    (now : Millis) : ActionOutcome :=
  match action with
  | AdminAction.reject =>
    ⟨user, { course with waitingForApproveList :=
        course.waitingForApproveList.filter (fun e => !(e.userId == user.userId)) }⟩
  | AdminAction.approve => ⟨approveUser user now, course⟩

/-- One step of a sequence of approve actions on the same (user, course)
    pair. -/
def runApprove (p : User × Course) (now : Millis) : User × Course :=
  ((courseAction p.1 p.2 AdminAction.approve now).user,
   (courseAction p.1 p.2 AdminAction.approve now).course)

/-! ## Concrete fixtures used by counterexamples and witnesses -/

/-- A schema-complete user with no certification status yet. -/
def baseUser : User :=
  { userId := "u1", name := "Alice", email := "a@example.com", role := "user",
    phonenumber := "0812345678", idcard := "1103700000001", company := "ACME",
    password := "hashed", avatar := none, trainingInfo := [],
    statusStartDate := none, statusEndDate := none,
    statusExpiration := none, statusDuration := none, status := "Active" }

/-- A second user, distinct from `baseUser`. -/
def otherUser : User :=
  { baseUser with
    userId := "u2"
    email := "b@example.com"
    phonenumber := "0898765432"
    idcard := "1103700000002" }

/-- A schema-complete course: session on 2024-01-01T00:00:00Z lasting 2
    hours, capacity 1, an open application period, and a waiting entry
    for `baseUser`. -/
def baseCourse : Course :=
  { courseId := "course-1", courseName := "Intro", courseCode := "C101",
    description := "desc", location := "BKK", courseImage := none,
    enrollmentLimit := 1, currentEnrollment := 0, price := 1000, hours := 2,
    courseTag := ["tag"], createDate := 0, courseDate := some 1704067200000,
    applicationPeriod := some ⟨some 0, some 2000000000000⟩, imageUrl := none,
    status := none, isPublished := true, registeredUsers := [],
    waitingForApproveList := [⟨"u1", "a@example.com", 1704067200000⟩],
    generatedCode := none, generatedCodeTimestamp := none }

/-! ## Claim C1 -/

/-- C1 counterexample: approving `baseUser` (no prior `statusStartDate`)
    at now = 2024-01-01T00:00:00Z (= 1704067200000 ms) sets
    `statusEndDate` to 2026-01-01 (= 1767225600000 ms = now + 2 years),
    not to now + 1 year = 2025-01-01 (= 1735689600000 ms) as the claim
    states. -/
theorem firstApprove_one_year_cex :
    baseUser.statusStartDate = none
    ∧ (courseAction baseUser baseCourse AdminAction.approve 1704067200000).user.statusStartDate
      = some 1704067200000
    ∧ (courseAction baseUser baseCourse AdminAction.approve 1704067200000).user.statusEndDate
      = some 1767225600000
    ∧ addYears 1704067200000 1 = 1735689600000
    ∧ (courseAction baseUser baseCourse AdminAction.approve 1704067200000).user.statusEndDate
      ≠ some (addYears 1704067200000 1) := by
  refine ⟨by decide, by decide, by decide, by decide, by decide⟩

/-- C1 (amended): a successful approve action on a user with no prior
    `statusStartDate` sets `statusStartDate = now` and
    `statusEndDate = now + 2 years`. -/
theorem firstApprove_sets_two_year_window (u : User) (c : Course) (now : Millis)
    (h : u.statusStartDate = none) :
    (courseAction u c AdminAction.approve now).user.statusStartDate = some now
    ∧ (courseAction u c AdminAction.approve now).user.statusEndDate
        = some (addYears now 2) := by
  simp [courseAction, approveUser, finishApprove, h]

/-- C1 witness: the amended theorem applied to `baseUser` at
    2024-01-01T00:00:00Z. -/
theorem firstApprove_sets_two_year_window_witness :
    baseUser.statusStartDate = none
    ∧ ((courseAction baseUser baseCourse AdminAction.approve 1704067200000).user.statusStartDate
        = some 1704067200000
      ∧ (courseAction baseUser baseCourse AdminAction.approve 1704067200000).user.statusEndDate
        = some (addYears 1704067200000 2)) :=
  ⟨rfl, firstApprove_sets_two_year_window baseUser baseCourse 1704067200000 rfl⟩

/-! ## Claim C2 -/

/-- C2 counterexample: `baseCourse.courseId` is not in
    `baseUser.trainingInfo` and `baseUser` has a pending waiting entry,
    yet approving appends nothing to `trainingInfo` (it stays empty) and
    the waiting entry is still present afterwards — the approve branch
    never touches either list. -/
theorem approve_append_remove_cex :
    hasCourse baseUser baseCourse.courseId = false
    ∧ (∃ w ∈ baseCourse.waitingForApproveList, w.userId = baseUser.userId)
    ∧ ¬(∃ info ∈ (courseAction baseUser baseCourse AdminAction.approve 1704067200000).user.trainingInfo,
          info.courseId = baseCourse.courseId)
    ∧ (∃ w ∈ (courseAction baseUser baseCourse AdminAction.approve 1704067200000).course.waitingForApproveList,
          w.userId = baseUser.userId) := by
  refine ⟨by decide, by decide, by decide, by decide⟩

/-- C2 (amended): a successful approve action leaves `user.trainingInfo`
    and the whole course document — in particular
    `waitingForApproveList` — unchanged; the approve branch only updates
    the user's certification-status fields and never appends a training
    record nor removes the waiting entry. -/
theorem approve_leaves_training_and_waitlist_unchanged
    (u : User) (c : Course) (now : Millis) :
    (courseAction u c AdminAction.approve now).user.trainingInfo = u.trainingInfo
    ∧ (courseAction u c AdminAction.approve now).course = c := by
  cases h : u.statusStartDate <;>
    simp [courseAction, approveUser, finishApprove, h]

/-! ## Claim C9 -/

/-- C9: a successful approve action modifies only the four fields
    `statusStartDate`, `statusEndDate`, `statusDuration` and
    `statusExpiration` of the user; every other user field (identity,
    credentials, `trainingInfo`, account `status`) and the whole course
    document (including `waitingForApproveList` and `generatedCode`) are
    unchanged. -/
theorem approve_frame_only_status_fields (u : User) (c : Course) (now : Millis) :
    (courseAction u c AdminAction.approve now).course = c
    ∧ (courseAction u c AdminAction.approve now).user.userId = u.userId
    ∧ (courseAction u c AdminAction.approve now).user.name = u.name
    ∧ (courseAction u c AdminAction.approve now).user.email = u.email
    ∧ (courseAction u c AdminAction.approve now).user.role = u.role
    ∧ (courseAction u c AdminAction.approve now).user.phonenumber = u.phonenumber
    ∧ (courseAction u c AdminAction.approve now).user.idcard = u.idcard
    ∧ (courseAction u c AdminAction.approve now).user.company = u.company
    ∧ (courseAction u c AdminAction.approve now).user.password = u.password
    ∧ (courseAction u c AdminAction.approve now).user.avatar = u.avatar
    ∧ (courseAction u c AdminAction.approve now).user.trainingInfo = u.trainingInfo
    ∧ (courseAction u c AdminAction.approve now).user.status = u.status := by
  cases h : u.statusStartDate <;>
    simp [courseAction, approveUser, finishApprove, h]

/-! ## Claim C7 -/

/-- C7: for a user with a pending waiting entry, the reject action
    removes exactly the waiting entries matching that userId: the user
    document is untouched, the course changes only in
    `waitingForApproveList` (filtered by userId), and no entry for that
    userId survives. -/
theorem reject_removes_only_matching_entries (u : User) (c : Course) (now : Millis)
    (_hpending : ∃ w ∈ c.waitingForApproveList, w.userId = u.userId) :
    (courseAction u c AdminAction.reject now).user = u
    ∧ (courseAction u c AdminAction.reject now).course
        = { c with waitingForApproveList :=
              c.waitingForApproveList.filter (fun e => !(e.userId == u.userId)) }
    ∧ ∀ w ∈ (courseAction u c AdminAction.reject now).course.waitingForApproveList,
        w.userId ≠ u.userId := by
  refine ⟨rfl, rfl, ?_⟩
  intro w hw
  simp only [courseAction, List.mem_filter] at hw
  simpa using hw.2

/-- C7 witness: rejecting `baseUser` on `baseCourse` (which holds a
    pending entry for `baseUser`). -/
theorem reject_removes_only_matching_entries_witness :
    (∃ w ∈ baseCourse.waitingForApproveList, w.userId = baseUser.userId)
    ∧ ((courseAction baseUser baseCourse AdminAction.reject 0).user = baseUser
      ∧ (courseAction baseUser baseCourse AdminAction.reject 0).course
          = { baseCourse with waitingForApproveList :=
                baseCourse.waitingForApproveList.filter (fun e => !(e.userId == baseUser.userId)) }
      ∧ ∀ w ∈ (courseAction baseUser baseCourse AdminAction.reject 0).course.waitingForApproveList,
          w.userId ≠ baseUser.userId) :=
  ⟨by decide, reject_removes_only_matching_entries baseUser baseCourse 0 (by decide)⟩

/-! ## Claim C3 -/

/-- Capping at a ceiling yields a value at most the ceiling. -/
theorem if_cap_le (m x e : Int) (h : (if m < x then m else x) = e) : e ≤ m := by
  split at h
  · subst h
    exact le_refl m
  · next hnot =>
    subst h
    exact le_of_not_lt hnot

/-- One approve step keeps the certification window within the two-year
    ceiling: afterwards `statusEndDate ≤ statusStartDate + 2 years`.  In
    the initialization branch the end is exactly the ceiling; in the
    extension branch the final assignment caps at `maxAllowedEndDate`. -/
theorem approveUser_ceiling (u : User) (now s e : Millis)
    (hs : (approveUser u now).statusStartDate = some s)
    (he : (approveUser u now).statusEndDate = some e) :
    e ≤ addYears s 2 := by
  cases h : u.statusStartDate with
  | none =>
    simp only [approveUser, finishApprove, h] at hs he
    simp only [Option.some.injEq] at hs he
    subst hs
    subst he
    exact le_refl _
  | some start =>
    simp only [approveUser, finishApprove, h] at hs he
    simp only [Option.some.injEq] at hs he
    subst hs
    exact if_cap_le _ _ e he

/-- The two-year ceiling holds after any nonempty sequence of approve
    steps, whatever the starting pair. -/
theorem ceiling_after_run (times : List Millis) :
    ∀ p : User × Course, times ≠ [] → ∀ s e,
      (List.foldl runApprove p times).1.statusStartDate = some s →
      (List.foldl runApprove p times).1.statusEndDate = some e →
      e ≤ addYears s 2 := by
  induction times with
  | nil => intro p h; exact absurd rfl h
  | cons t rest ih =>
    intro p _ s e hs he
    rw [List.foldl_cons] at hs he
    rcases eq_or_ne rest [] with hr | hr
    · subst hr
      simp only [List.foldl_nil] at hs he
      exact approveUser_ceiling p.1 t s e hs he
    · exact ih (runApprove p t) hr s e hs he

/-- C3: over any nonempty sequence of approve actions on the same user,
    after the last action `statusEndDate` never exceeds
    `statusStartDate + 2 years` (and every intermediate point of the
    sequence is the last action of a prefix sequence, so the bound holds
    after any action of the sequence). -/
theorem approve_sequence_two_year_ceiling (u : User) (c : Course)
    (times : List Millis) (hne : times ≠ []) (s e : Millis)
    (hs : (List.foldl runApprove (u, c) times).1.statusStartDate = some s)
    (he : (List.foldl runApprove (u, c) times).1.statusEndDate = some e) :
    e ≤ addYears s 2 :=
  ceiling_after_run times (u, c) hne s e hs he

/-- C3 witness: two approvals of `baseUser`, at 2024-01-01 and at
    2024-06-01; the resulting window is 2024-01-01 .. 2026-01-01, equal
    to the ceiling. -/
theorem approve_sequence_two_year_ceiling_witness :
    ([1704067200000, 1717200000000] : List Millis) ≠ []
    ∧ (List.foldl runApprove (baseUser, baseCourse)
        [1704067200000, 1717200000000]).1.statusStartDate = some 1704067200000
    ∧ (List.foldl runApprove (baseUser, baseCourse)
        [1704067200000, 1717200000000]).1.statusEndDate = some 1767225600000
    ∧ (1767225600000 : Millis) ≤ addYears 1704067200000 2 :=
  ⟨by decide, by decide, by decide,
    approve_sequence_two_year_ceiling baseUser baseCourse
      [1704067200000, 1717200000000] (by decide) 1704067200000 1767225600000
      (by decide) (by decide)⟩

/-! ## Claim C4 -/

/-- A failed /registerCourse call leaves the storage state untouched. -/
theorem registerCourse_fail_state (s : RegState) (uid : String) (now : Millis)
    (h : (registerCourse s uid now).error ≠ none) :
    (registerCourse s uid now).state = s := by
  unfold registerCourse at *
  cases husers : s.users uid with
  | none => simp [husers]
  | some user =>
    cases h1 : appPeriodClosed s.course now with
    | true => simp [husers, h1]
    | false =>
      cases h2 : hasCourse user s.course.courseId with
      | true => simp [husers, h1, h2]
      | false =>
        cases h3 : decide (s.course.enrollmentLimit ≤ s.course.currentEnrollment) with
        | true => simp [husers, h1, h2, of_decide_eq_true h3]
        | false =>
          exact absurd (by simp [husers, h1, h2, of_decide_eq_false h3]) h

/-- Characterization of a successful /registerCourse call: the user was
    found, had not registered this course, capacity was available, and
    the post-state is exactly the triple mutation of lines 918-941. -/
theorem registerCourse_success_spec (s : RegState) (uid : String) (now : Millis)
    (h : (registerCourse s uid now).error = none) :
    ∃ user, s.users uid = some user
      ∧ hasCourse user s.course.courseId = false
      ∧ s.course.currentEnrollment < s.course.enrollmentLimit
      ∧ (registerCourse s uid now).state.course
          = { s.course with
              currentEnrollment := s.course.currentEnrollment + 1
              registeredUsers := s.course.registeredUsers ++ [registeredSummaryOf user] }
      ∧ (registerCourse s uid now).state.users
          = fun u2 =>
              if u2 = uid then
                some { user with trainingInfo := user.trainingInfo ++ [trainingRecordOf s.course] }
              else s.users u2 := by
  unfold registerCourse at *
  cases husers : s.users uid with
  | none => simp [husers] at h
  | some user =>
    cases h1 : appPeriodClosed s.course now with
    | true => simp [husers, h1] at h
    | false =>
      cases h2 : hasCourse user s.course.courseId with
      | true => simp [husers, h1, h2] at h
      | false =>
        cases h3 : decide (s.course.enrollmentLimit ≤ s.course.currentEnrollment) with
        | true => simp [husers, h1, h2, of_decide_eq_true h3] at h
        | false =>
          refine ⟨user, rfl, h2, lt_of_not_le (of_decide_eq_false h3), ?_, ?_⟩
          · simp [husers, h1, h2, of_decide_eq_false h3]
          · simp [husers, h1, h2, of_decide_eq_false h3]

/-- Each successful /registerCourse call increments `currentEnrollment`
    by exactly 1. -/
theorem registerCourse_success_increment (s : RegState) (uid : String) (now : Millis)
    (h : (registerCourse s uid now).error = none) :
    (registerCourse s uid now).state.course.currentEnrollment
      = s.course.currentEnrollment + 1 := by
  obtain ⟨user, -, -, -, hc, -⟩ := registerCourse_success_spec s uid now h
  rw [hc]

/-- /registerCourse never changes `enrollmentLimit` or `courseId`. -/
theorem registerCourse_const_fields (s : RegState) (uid : String) (now : Millis) :
    (registerCourse s uid now).state.course.enrollmentLimit = s.course.enrollmentLimit
    ∧ (registerCourse s uid now).state.course.courseId = s.course.courseId := by
  rcases Option.eq_none_or_eq_some (registerCourse s uid now).error with h | ⟨e, h⟩
  · obtain ⟨user, -, -, -, hc, -⟩ := registerCourse_success_spec s uid now h
    rw [hc]
    exact ⟨rfl, rfl⟩
  · rw [registerCourse_fail_state s uid now (by simp [h])]
    exact ⟨rfl, rfl⟩

/-- A userId is "marked" in a state when the user it denotes (if any)
    already has this course in `trainingInfo`; such a user can never
    register again (the Error-02-0005 guard). -/
def marked (s : RegState) (uid : String) : Prop :=
  ∀ u, s.users uid = some u → hasCourse u s.course.courseId = true

/-- A successful registration marks the registering user. -/
theorem registerCourse_marks (s : RegState) (uid : String) (now : Millis)
    (h : (registerCourse s uid now).error = none) :
    marked (registerCourse s uid now).state uid := by
  obtain ⟨user, -, -, -, hc, hu⟩ := registerCourse_success_spec s uid now h
  intro u husome
  rw [hu] at husome
  simp only [if_pos rfl] at husome
  rw [hc]
  cases husome
  simp [hasCourse, trainingRecordOf]

/-- Marking is preserved by any further /registerCourse call. -/
theorem registerCourse_preserves_marked (s : RegState) (uid uid2 : String)
    (now : Millis) (h : marked s uid) :
    marked (registerCourse s uid2 now).state uid := by
  rcases Option.eq_none_or_eq_some (registerCourse s uid2 now).error with herr | ⟨e, herr⟩
  · rcases eq_or_ne uid uid2 with rfl | hne
    · exact registerCourse_marks s uid now herr
    · obtain ⟨user, -, -, -, hc, hu⟩ := registerCourse_success_spec s uid2 now herr
      intro u husome
      rw [hu] at husome
      simp only [if_neg hne] at husome
      rw [hc]
      exact h u husome
  · rw [registerCourse_fail_state s uid2 now (by simp [herr])]
    exact h

/-- A marked userId can never register successfully again. -/
theorem registerCourse_marked_fails (s : RegState) (uid : String) (now : Millis)
    (h : marked s uid) : (registerCourse s uid now).error ≠ none := by
  intro herr
  obtain ⟨user, husers, hnot, -, -, -⟩ := registerCourse_success_spec s uid now herr
  rw [h user husers] at hnot
  simp at hnot

/-- Over any run, `enrollmentLimit` and `courseId` are constant. -/
theorem runRegisters_const_fields (ops : List (String × Millis)) :
    ∀ s : RegState,
      (runRegisters s ops).1.course.enrollmentLimit = s.course.enrollmentLimit
      ∧ (runRegisters s ops).1.course.courseId = s.course.courseId := by
  induction ops with
  | nil => intro s; exact ⟨rfl, rfl⟩
  | cons op rest ih =>
    intro s
    obtain ⟨hl, hc⟩ := ih (registerCourse s op.1 op.2).state
    obtain ⟨hl2, hc2⟩ := registerCourse_const_fields s op.1 op.2
    exact ⟨by rw [runRegisters, hl, hl2], by rw [runRegisters, hc, hc2]⟩

/-- Over any run, the enrollment counter grows by exactly the number of
    successful calls. -/
theorem runRegisters_count (ops : List (String × Millis)) :
    ∀ s : RegState,
      (runRegisters s ops).1.course.currentEnrollment
        = s.course.currentEnrollment + ((runRegisters s ops).2.length : Int) := by
  induction ops with
  | nil => intro s; simp [runRegisters]
  | cons op rest ih =>
    intro s
    rw [runRegisters]
    rcases Option.eq_none_or_eq_some (registerCourse s op.1 op.2).error with herr | ⟨e, herr⟩
    · have hstep := registerCourse_success_increment s op.1 op.2 herr
      simp only [herr]
      rw [ih (registerCourse s op.1 op.2).state, hstep]
      simp
      ring
    · have hstate := registerCourse_fail_state s op.1 op.2 (by simp [herr])
      simp only [herr]
      rw [ih (registerCourse s op.1 op.2).state, hstate]
      simp

/-- Over any run, the capacity bound `currentEnrollment ≤ enrollmentLimit`
    is preserved. -/
theorem runRegisters_capacity (ops : List (String × Millis)) :
    ∀ s : RegState,
      s.course.currentEnrollment ≤ s.course.enrollmentLimit →
      (runRegisters s ops).1.course.currentEnrollment
        ≤ (runRegisters s ops).1.course.enrollmentLimit := by
  induction ops with
  | nil => intro s h; exact h
  | cons op rest ih =>
    intro s h
    rw [runRegisters]
    apply ih
    rcases Option.eq_none_or_eq_some (registerCourse s op.1 op.2).error with herr | ⟨e, herr⟩
    · obtain ⟨user, -, -, hlt, hc, -⟩ := registerCourse_success_spec s op.1 op.2 herr
      rw [hc]
      simpa using hlt
    · rw [registerCourse_fail_state s op.1 op.2 (by simp [herr])]
      exact h

/-- A marked userId stays marked over any run and never appears among
    the successes of the run. -/
theorem runRegisters_marked (ops : List (String × Millis)) :
    ∀ s uid, marked s uid →
      marked (runRegisters s ops).1 uid ∧ uid ∉ (runRegisters s ops).2 := by
  induction ops with
  | nil => intro s uid h; exact ⟨h, by simp [runRegisters]⟩
  | cons op rest ih =>
    intro s uid h
    rw [runRegisters]
    have hm := registerCourse_preserves_marked s uid op.1 op.2 h
    obtain ⟨hm2, hnot⟩ := ih (registerCourse s op.1 op.2).state uid hm
    refine ⟨hm2, ?_⟩
    rcases herr : (registerCourse s op.1 op.2).error with - | e
    · simp only [herr]
      intro hmem
      rcases List.mem_append.1 hmem with hl | hr
      · have huid : uid = op.1 := by simpa using hl
        subst huid
        exact registerCourse_marked_fails s op.1 op.2 h herr
      · exact hnot hr
    · simp only [herr]
      intro hmem
      rcases List.mem_append.1 hmem with hl | hr
      · simp at hl
      · exact hnot hr

/-- The successful userIds of any run are pairwise distinct. -/
theorem runRegisters_nodup (ops : List (String × Millis)) :
    ∀ s : RegState, (runRegisters s ops).2.Nodup := by
  induction ops with
  | nil => intro s; simp [runRegisters]
  | cons op rest ih =>
    intro s
    rw [runRegisters]
    rcases herr : (registerCourse s op.1 op.2).error with - | e
    · have hm := registerCourse_marks s op.1 op.2 herr
      have hnot := (runRegisters_marked rest (registerCourse s op.1 op.2).state op.1 hm).2
      simp only [herr]
      simpa using List.Nodup.cons hnot (ih (registerCourse s op.1 op.2).state)
    · simp only [herr]
      simpa using ih (registerCourse s op.1 op.2).state

/-- C4: starting from a fresh course (counter 0, nonnegative limit), over
    any sequence of /registerCourse calls the enrollment counter never
    exceeds the enrollment limit and always equals the number of
    successfully registered users, those users are pairwise distinct, and
    every successful call increments the counter by exactly 1. -/
theorem register_capacity_and_distinct_count (s : RegState)
    (ops : List (String × Millis))
    (h0 : s.course.currentEnrollment = 0)
    (hlim : 0 ≤ s.course.enrollmentLimit) :
    (runRegisters s ops).1.course.currentEnrollment
        ≤ (runRegisters s ops).1.course.enrollmentLimit
    ∧ (runRegisters s ops).1.course.currentEnrollment
        = ((runRegisters s ops).2.length : Int)
    ∧ (runRegisters s ops).2.Nodup
    ∧ ∀ (s1 : RegState) (uid : String) (now : Millis),
        (registerCourse s1 uid now).error = none →
        (registerCourse s1 uid now).state.course.currentEnrollment
          = s1.course.currentEnrollment + 1 :=
  ⟨runRegisters_capacity ops s (by rw [h0]; exact hlim),
    by rw [runRegisters_count ops s, h0, zero_add],
    runRegisters_nodup ops s,
    registerCourse_success_increment⟩

/-- A concrete storage state: `baseCourse` (capacity 1, counter 0) and
    two users. -/
def baseRegState : RegState :=
  ⟨baseCourse, fun uid =>
    if uid = "u1" then some baseUser
    else if uid = "u2" then some otherUser
    else none⟩

/-- C4 witness: two registration attempts against the capacity-1
    `baseCourse`. -/
theorem register_capacity_and_distinct_count_witness :
    baseRegState.course.currentEnrollment = 0
    ∧ 0 ≤ baseRegState.course.enrollmentLimit
    ∧ ((runRegisters baseRegState [("u1", 100), ("u2", 100)]).1.course.currentEnrollment
          ≤ (runRegisters baseRegState [("u1", 100), ("u2", 100)]).1.course.enrollmentLimit
      ∧ (runRegisters baseRegState [("u1", 100), ("u2", 100)]).1.course.currentEnrollment
          = ((runRegisters baseRegState [("u1", 100), ("u2", 100)]).2.length : Int)
      ∧ (runRegisters baseRegState [("u1", 100), ("u2", 100)]).2.Nodup
      ∧ ∀ (s1 : RegState) (uid : String) (now : Millis),
          (registerCourse s1 uid now).error = none →
          (registerCourse s1 uid now).state.course.currentEnrollment
            = s1.course.currentEnrollment + 1) :=
  ⟨rfl, by decide,
    register_capacity_and_distinct_count baseRegState [("u1", 100), ("u2", 100)]
      rfl (by decide)⟩

/-! ## Claim C5 -/

/-- `baseCourse` with a still-active generated code: the stored
    timestamp equals the session start, hence lies in the session
    window. -/
def activeCodeCourse : Course :=
  { baseCourse with
    generatedCode := some "1234"
    generatedCodeTimestamp := some 1704067200000 }

/-- C5 counterexample: at now = 2023-12-31T23:00:00Z the adjusted time
    (+7h) is 2024-01-01T06:00:00 UTC-read-as-GMT+7, inside the session
    window of `activeCodeCourse`, yet `generateCode` fails — with
    `CodeAlreadyActive` — because a previously generated code is still
    active; so "succeeds iff courseStart ≤ adjustedNow ≤ courseStart +
    hours" is false. -/
theorem generateCode_window_iff_cex :
    activeCodeCourse.courseDate = some 1704067200000
    ∧ (1704067200000 : Millis) ≤ 1704045600000 + 7 * msPerHour
    ∧ 1704045600000 + 7 * msPerHour ≤ addHours 1704067200000 activeCodeCourse.hours
    ∧ (generateCode activeCodeCourse 1704045600000 "5678").error ≠ none
    ∧ (generateCode activeCodeCourse 1704045600000 "5678").error
        = some GenErr.codeAlreadyActive := by
  refine ⟨by decide, by decide, by decide, by decide, by decide⟩

/-- C5 (amended): for a course with a present `courseDate` and positive
    `hours`, `generateCode` succeeds iff the adjusted now (+7h offset)
    lies in `[courseStart, courseStart + hours]` AND no previously
    generated code has a timestamp inside that window; when the adjusted
    now is before the window it fails with the before-start error
    (OutOfWindow), and when it is past the window it fails with the
    expired error (WindowExpired). -/
theorem generateCode_success_characterization (c : Course) (now : Millis)
    (code : String) (d : Millis) (hd : c.courseDate = some d) (hh : 0 < c.hours) :
    ((generateCode c now code).error = none ↔
      (d ≤ now + 7 * msPerHour ∧ now + 7 * msPerHour ≤ addHours d c.hours
        ∧ codeActiveInWindow c d (addHours d c.hours) = false))
    ∧ (now + 7 * msPerHour < d →
        (generateCode c now code).error = some GenErr.beforeStart)
    ∧ (addHours d c.hours < now + 7 * msPerHour →
        (generateCode c now code).error = some GenErr.expired) := by
  have hne : c.hours ≠ 0 := hh.ne'
  have hde : d ≤ addHours d c.hours := by
    have hpos : 0 < c.hours * msPerHour :=
      mul_pos hh (by norm_num [msPerHour])
    simp only [addHours]
    linarith
  simp only [generateCode, hd]
  rw [if_neg hne]
  by_cases h1 : now + 7 * msPerHour < d
  · rw [if_pos h1]
    refine ⟨⟨fun h => by simp at h, fun hc => absurd h1 (not_lt.mpr hc.1)⟩,
      fun _ => rfl, fun h2 => absurd hde (not_le.mpr (lt_trans h2 h1))⟩
  · rw [if_neg h1]
    by_cases h2 : addHours d c.hours < now + 7 * msPerHour
    · rw [if_pos h2]
      exact ⟨⟨fun h => by simp at h, fun hc => absurd h2 (not_lt.mpr hc.2.1)⟩,
        fun hlt => absurd hlt h1, fun _ => rfl⟩
    · rw [if_neg h2]
      by_cases h3 : codeActiveInWindow c d (addHours d c.hours) = true
      · rw [if_pos h3]
        refine ⟨⟨fun h => by simp at h, fun hc => ?_⟩,
          fun hlt => absurd hlt h1, fun hlt => absurd hlt h2⟩
        rw [h3] at hc
        simp at hc
      · have h3f : codeActiveInWindow c d (addHours d c.hours) = false :=
          Bool.eq_false_iff.mpr h3
        rw [if_neg h3]
        exact ⟨⟨fun _ => ⟨not_lt.1 h1, not_lt.1 h2, h3f⟩, fun _ => rfl⟩,
          fun hlt => absurd hlt h1, fun hlt => absurd hlt h2⟩

/-- C5 witness: `baseCourse` (no stored code) at the same in-window
    instant. -/
theorem generateCode_success_characterization_witness :
    baseCourse.courseDate = some 1704067200000
    ∧ (0 : Int) < baseCourse.hours
    ∧ (((generateCode baseCourse 1704045600000 "5678").error = none ↔
        ((1704067200000 : Millis) ≤ 1704045600000 + 7 * msPerHour
          ∧ 1704045600000 + 7 * msPerHour ≤ addHours 1704067200000 baseCourse.hours
          ∧ codeActiveInWindow baseCourse 1704067200000
              (addHours 1704067200000 baseCourse.hours) = false))
      ∧ (1704045600000 + 7 * msPerHour < 1704067200000 →
          (generateCode baseCourse 1704045600000 "5678").error = some GenErr.beforeStart)
      ∧ (addHours 1704067200000 baseCourse.hours < 1704045600000 + 7 * msPerHour →
          (generateCode baseCourse 1704045600000 "5678").error = some GenErr.expired)) :=
  ⟨rfl, by decide,
    generateCode_success_characterization baseCourse 1704045600000 "5678"
      1704067200000 rfl (by decide)⟩

/-! ## Claim C6 -/

/-- A user who already completed a different course scheduled at exactly
    the same `courseDate` instant as `baseCourse`. -/
def collideUser : User :=
  { baseUser with
    trainingInfo := [⟨"other-course", "Other", "d", "loc", none, some 1704067200000, 2⟩] }

/-- Storage state for the collision scenario. -/
def collideState : RegState :=
  ⟨baseCourse, fun uid => if uid = "u1" then some collideUser else none⟩

/-- C6 counterexample: `collideUser` has a `trainingInfo` entry with a
    `courseDate` identical to `baseCourse.courseDate` (and a different
    courseId), yet /registerCourse succeeds — neither handler contains
    any schedule-conflict check, so no ScheduleConflict failure exists. -/
theorem register_schedule_conflict_cex :
    (∃ info ∈ collideUser.trainingInfo,
        info.courseDate = baseCourse.courseDate ∧ info.courseId ≠ baseCourse.courseId)
    ∧ (registerCourse collideState "u1" 100).error = none := by
  refine ⟨by decide, by decide⟩

/-- C6 (amended): /registerCourse performs no schedule-conflict check:
    when the user exists, the application window is open, the course is
    not already in `trainingInfo` and capacity remains, registration
    succeeds even though an existing `trainingInfo` entry (for another
    course) has the identical `courseDate` instant. -/
theorem register_ignores_schedule_collision (s : RegState) (uid : String)
    (now : Millis) (user : User)
    (hu : s.users uid = some user)
    (hopen : appPeriodClosed s.course now = false)
    (hdup : hasCourse user s.course.courseId = false)
    (hcap : s.course.currentEnrollment < s.course.enrollmentLimit)
    (_hcollide : ∃ info ∈ user.trainingInfo,
        info.courseDate = s.course.courseDate ∧ info.courseId ≠ s.course.courseId) :
    (registerCourse s uid now).error = none := by
  unfold registerCourse
  simp [hu, hopen, hdup, not_le.mpr hcap]

/-- C6 witness: the amended theorem applied to the collision scenario. -/
theorem register_ignores_schedule_collision_witness :
    collideState.users "u1" = some collideUser
    ∧ appPeriodClosed collideState.course 100 = false
    ∧ hasCourse collideUser collideState.course.courseId = false
    ∧ collideState.course.currentEnrollment < collideState.course.enrollmentLimit
    ∧ (∃ info ∈ collideUser.trainingInfo,
        info.courseDate = collideState.course.courseDate
          ∧ info.courseId ≠ collideState.course.courseId)
    ∧ (registerCourse collideState "u1" 100).error = none :=
  ⟨rfl, by decide, by decide, by decide, by decide,
    register_ignores_schedule_collision collideState "u1" 100 collideUser rfl
      (by decide) (by decide) (by decide) (by decide)⟩

/-! ## Claim C8 -/

/-- C8: calling /validateCode with the course's correct current code for
    a user who is not in `registeredUsers` fails with the not-registered
    error and leaves the course — in particular `waitingForApproveList` —
    unchanged; moreover no error path of /validateCode ever mutates the
    course (the push happens only on success). -/
theorem validateCode_notRegistered_no_mutation (c : Course)
    (enteredCode uid email : String) (now : Millis)
    (hcode : enteredCode ≠ "")
    (hmatch : c.generatedCode = some enteredCode)
    (hreg : c.registeredUsers.any (fun r => r.userId == uid) = false) :
    (validateCode c enteredCode uid email now).error = some ValErr.notRegistered
    ∧ (validateCode c enteredCode uid email now).course = c
    ∧ ∀ (c2 : Course) (ec u2 e2 : String) (n2 : Millis),
        (validateCode c2 ec u2 e2 n2).error ≠ none →
        (validateCode c2 ec u2 e2 n2).course = c2 := by
  refine ⟨?_, ?_, ?_⟩
  · simp [validateCode, hcode, hmatch, hreg]
  · simp [validateCode, hcode, hmatch, hreg]
  · intro c2 ec u2 e2 n2 herr
    by_cases k1 : ec = ""
    · simp [validateCode, k1]
    · by_cases k2 : c2.generatedCode = some ec
      · cases k3 : c2.registeredUsers.any (fun r => r.userId == u2) with
        | false => simp [validateCode, k1, k2, k3]
        | true =>
          cases k4 : validateWindowMissed c2 (n2 + 7 * msPerHour) with
          | true => simp [validateCode, k1, k2, k3, k4]
          | false =>
            cases k5 : c2.waitingForApproveList.any (fun e3 => e3.userId == u2) with
            | true => simp [validateCode, k1, k2, k3, k4, k5]
            | false =>
              exact absurd (by simp [validateCode, k1, k2, k3, k4, k5]) herr
      · simp [validateCode, k1, k2]

/-- C8 witness: the correct code "1234" of `activeCodeCourse`, whose
    `registeredUsers` list is empty. -/
theorem validateCode_notRegistered_no_mutation_witness :
    ("1234" : String) ≠ ""
    ∧ activeCodeCourse.generatedCode = some "1234"
    ∧ activeCodeCourse.registeredUsers.any (fun r => r.userId == "u1") = false
    ∧ ((validateCode activeCodeCourse "1234" "u1" "a@example.com" 0).error
          = some ValErr.notRegistered
      ∧ (validateCode activeCodeCourse "1234" "u1" "a@example.com" 0).course
          = activeCodeCourse
      ∧ ∀ (c2 : Course) (ec u2 e2 : String) (n2 : Millis),
          (validateCode c2 ec u2 e2 n2).error ≠ none →
          (validateCode c2 ec u2 e2 n2).course = c2) :=
  ⟨by decide, rfl, by decide,
    validateCode_notRegistered_no_mutation activeCodeCourse "1234" "u1"
      "a@example.com" 0 (by decide) rfl (by decide)⟩

/-! ## Claim C10 -/

/-- C10: when the course's `applicationPeriod` is absent, or lacks a
    start or an end date, /registerCourse fails with the same
    registration-closed error (Error-02-0004) that an out-of-window
    attempt produces, and no state is mutated. -/
theorem register_missing_application_period (s : RegState) (uid : String)
    (now : Millis) (user : User) (hu : s.users uid = some user)
    (hmiss : s.course.applicationPeriod = none
      ∨ ∃ p, s.course.applicationPeriod = some p
          ∧ (p.startDate = none ∨ p.endDate = none)) :
    (registerCourse s uid now).error = some RegErr.registrationClosed
    ∧ (registerCourse s uid now).state = s
    ∧ ∀ (s2 : RegState) (uid2 : String) (now2 : Millis) (user2 : User)
        (p : ApplicationPeriod) (sd ed : Millis),
        s2.users uid2 = some user2 →
        s2.course.applicationPeriod = some p →
        p.startDate = some sd → p.endDate = some ed →
        (now2 < sd ∨ ed < now2) →
        (registerCourse s2 uid2 now2).error = some RegErr.registrationClosed := by
  have hcl : appPeriodClosed s.course now = true := by
    rcases hmiss with h | ⟨p, hp, hsd | hed⟩
    · simp [appPeriodClosed, h]
    · simp [appPeriodClosed, hp, hsd]
    · cases hsd2 : p.startDate with
      | none => simp [appPeriodClosed, hp, hsd2]
      | some sd => simp [appPeriodClosed, hp, hsd2, hed]
  refine ⟨?_, ?_, ?_⟩
  · unfold registerCourse
    simp [hu, hcl]
  · unfold registerCourse
    simp [hu, hcl]
  · intro s2 uid2 now2 user2 p sd ed hu2 hp hsd hed hw
    have hcl2 : appPeriodClosed s2.course now2 = true := by
      rcases hw with hw | hw <;> simp [appPeriodClosed, hp, hsd, hed, hw]
    unfold registerCourse
    simp [hu2, hcl2]

/-- A course whose `applicationPeriod` is entirely absent. -/
def noPeriodCourse : Course := { baseCourse with applicationPeriod := none }

/-- Storage state for the missing-period scenario. -/
def noPeriodState : RegState :=
  ⟨noPeriodCourse, fun uid => if uid = "u1" then some baseUser else none⟩

/-- C10 witness: registering against `noPeriodCourse`. -/
theorem register_missing_application_period_witness :
    noPeriodState.users "u1" = some baseUser
    ∧ noPeriodState.course.applicationPeriod = none
    ∧ ((registerCourse noPeriodState "u1" 100).error = some RegErr.registrationClosed
      ∧ (registerCourse noPeriodState "u1" 100).state = noPeriodState
      ∧ ∀ (s2 : RegState) (uid2 : String) (now2 : Millis) (user2 : User)
          (p : ApplicationPeriod) (sd ed : Millis),
          s2.users uid2 = some user2 →
          s2.course.applicationPeriod = some p →
          p.startDate = some sd → p.endDate = some ed →
          (now2 < sd ∨ ed < now2) →
          (registerCourse s2 uid2 now2).error = some RegErr.registrationClosed) :=
  ⟨rfl, rfl,
    register_missing_application_period noPeriodState "u1" 100 baseUser rfl
      (Or.inl rfl)⟩
